import Mathlib

/-!
Shallow embedding of the `aiovmmanager` library (files `base.py` and
`vm6.py`): a thin async HTTP client over aiohttp.  HTTP exchanges are
modelled by passing an explicit `backend : Request → Response` function to
each operation; the asynchronous effects that matter to the specification
(requests issued, one-second sleeps, process exit) are recorded in explicit
traces.  Machine-level details (event loop scheduling, sockets) are outside
the model; the logic of every function below is translated line by line
from the Python source.
-/

/-- JSON values, as produced by `resp.json()`: the decoded Python dict or
list.  Object fields are kept in insertion order, as Python dicts do. -/
inductive Json where
  | null
  | bool (b : Bool)
  | num (n : Int)
  | str (s : String)
  | arr (items : List Json)
  | obj (fields : List (String × Json))

/-- Errors surfaced by the library.  `httpStatus` is the spec
taxonomy entry HttpStatusError.  Modelled from the spec: the source raises
aiohttp ClientResponseError from `resp.raise_for_status()` (aiohttp is a
third-party dependency whose code is not in this repository); the spec
states the error carries the status, the reason and the response body, and
that is what `httpStatus` carries here.  `contentTypeMismatch` models
aiohttp ContentTypeError from `resp.json(content_type=...)`;
`keyError`, `indexError` and `typeError` model the Python exceptions of the
same names raised by subscripting; `attributeError` models calling a method
on `self._session` when it is `None`. -/
inductive ApiError where
  | httpStatus (status : Nat) (reason : String) (body : Json)
  | contentTypeMismatch (declared : String) (actual : Option String)
  | keyError (key : String)
  | indexError (idx : Nat)
  | typeError
  | attributeError

inductive HttpMethod where
  | GET
  | POST
  | DELETE

/-- The request a verb hands to aiohttp: HTTP method, full url (path plus
query string, as the Python code assembles it into one string), optional
JSON body, the declared response content type (`content_type` argument of
`resp.json`; `none` models Python `None`), and the `ssl` flag passed to
the transport. -/
structure Request where
  method : HttpMethod
  url : String
  jsonBody : Option Json
  content_type : Option String
  ssl : Bool

/-- The backend answer: HTTP status, reason phrase, the content-type
header of the response (`none` when the server omits it), and the
JSON-decodable body. -/
structure Response where
  status : Nat
  reason : String
  contentTypeHeader : Option String
  body : Json

/-- Uppercase hexadecimal digit, as CPython percent-encoding emits. -/
def hexUpperDigit (n : Nat) : Char :=
  if n < 10 then Char.ofNat (48 + n) else Char.ofNat (55 + n)

/-- Percent-encoding of one byte, `%XX` with uppercase hex. -/
def percentEncodeByte (b : Nat) : List Char :=
  ['%', hexUpperDigit (b / 16), hexUpperDigit (b % 16)]

/-- CPython urllib `_ALWAYS_SAFE`: ASCII letters, digits, and the four
characters underscore, dot, hyphen, tilde. -/
def isAlwaysSafe (c : Char) : Bool :=
  c.isAlphanum || c = '_' || c = '.' || c = '-' || c = Char.ofNat 126

/-- CPython `urllib.parse.quote` restricted to one character: an ASCII
character (whose single UTF-8 byte equals its code point) is kept when it
is always-safe or in `safe`, and percent-encoded otherwise; a non-ASCII
character has every byte of its UTF-8 encoding percent-encoded (all those
bytes are at least 0x80, hence never safe).  This is the per-byte CPython
rule grouped by character. -/
def quoteChar (safe : List Char) (c : Char) : List Char :=
  if c.toNat < 128 then
    if isAlwaysSafe c || safe.contains c then [c]
    else percentEncodeByte c.toNat
  else (String.utf8EncodeChar c).flatMap (fun b => percentEncodeByte b.toNat)

/-- CPython `urllib.parse.quote_plus` on one character: a space becomes
a literal plus sign, everything else is encoded as `quoteChar` does.
(`quote_plus` quotes with the space kept safe and then replaces every
space by a plus, so its effect is exactly this, character by character.) -/
def quoteCharPlus (safe : List Char) (c : Char) : List Char :=
  if c = Char.ofNat 32 then ['+'] else quoteChar safe c

/-- CPython `urllib.parse.quote_plus` on a string: concatenation of the
per-character encodings. -/
def quote_plus (safe : List Char) (s : String) : String :=
  (s.data.flatMap (quoteCharPlus safe)).asString

/-- The `safe` argument the source passes to `urlencode`: the string
plus, apostrophe, open parenthesis, close parenthesis (code 39 is the
apostrophe). -/
def urlencodeSafe : List Char := ['+', Char.ofNat 39, '(', ')']

/-- CPython `urllib.parse.urlencode(params, safe="+'()")` with string keys
and values: each pair is encoded `quote_plus key = quote_plus value` and
the pairs are joined with ampersands. -/
def urlencode (params : List (String × String)) : String :=
  String.intercalate "&"
    (params.map (fun kv => quote_plus urlencodeSafe kv.1 ++ "=" ++ quote_plus urlencodeSafe kv.2))

/-- The state of a `BaseSession` object: the constructor-set configuration
fields `url`, `definition`, `version`, `ssl` (from `base.py`), and
`sessionConn`, which models `self._session` — `none` when no
aiohttp ClientSession is held (before entry and after exit), `some i`
when the session holds the live connection context with identity `i`. -/
structure BaseSession where
  url : String
  definition : String
  version : String
  ssl : Bool
  sessionConn : Option Nat

/-- `BaseSession.endpoint`: the computed property `/{definition}/{version}`. -/
def BaseSession.endpoint (s : BaseSession) : String :=
  "/" ++ s.definition ++ "/" ++ s.version

/-- Ambient bookkeeping for connection contexts: `nextId` identifies the
next ClientSession `__aenter__` would create, `closeLog` records, in
order, every connection context on which `close()` has been awaited. -/
structure ConnWorld where
  nextId : Nat
  closeLog : List Nat

/-- `BaseSession.__aenter__`: create a fresh aiohttp ClientSession and
store it in `self._session`. -/
def BaseSession.aenter (s : BaseSession) (w : ConnWorld) : BaseSession × ConnWorld :=
  ({ s with sessionConn := some w.nextId }, { w with nextId := w.nextId + 1 })

/-- `BaseSession.__aexit__(*err)`: await `self._session.close()` then set
`self._session = None`.  The exception information `err` is ignored by the
source, so it is ignored here; when `self._session` is already `None`
the awaited `close()` attribute access fails. -/
def BaseSession.aexit (s : BaseSession) (err : Option ApiError) (w : ConnWorld) :
    Except ApiError (BaseSession × ConnWorld) :=
  match s.sessionConn with
  | none => Except.error ApiError.attributeError
  | some c =>
      Except.ok ({ s with sessionConn := none }, { w with closeLog := w.closeLog ++ [c] })

/-- URL assembly of `BaseSession.get`:
`params_str = urlencode(params, safe="+'()")`; `url = f'{endpoint}{url}'`;
`url = f'{url}?{params_str}' if params_str else url`. -/
def buildGetUrl (s : BaseSession) (url : String) (params : List (String × String)) : String :=
  let params_str := urlencode params
  let url1 := s.endpoint ++ url
  if params_str = "" then url1 else url1 ++ "?" ++ params_str

/-- The request issued by `BaseSession.get`. -/
def getRequest (s : BaseSession) (url : String) (params : List (String × String))
    (content_type : Option String) : Request :=
  { method := HttpMethod.GET, url := buildGetUrl s url params,
    jsonBody := none, content_type := content_type, ssl := s.ssl }

/-- The request issued by `BaseSession.post`: url is `f'{endpoint}{url}'`. -/
def postRequest (s : BaseSession) (url : String) (json : Option Json)
    (content_type : Option String) : Request :=
  { method := HttpMethod.POST, url := s.endpoint ++ url,
    jsonBody := json, content_type := content_type, ssl := s.ssl }

/-- The request issued by `BaseSession.delete`: url is `f'{endpoint}{url}'`. -/
def deleteRequest (s : BaseSession) (url : String) (content_type : Option String) : Request :=
  { method := HttpMethod.DELETE, url := s.endpoint ++ url,
    jsonBody := none, content_type := content_type, ssl := s.ssl }

/-- `resp.raise_for_status()`: error exactly when the status is 400 or
higher (as the source docstrings state), carrying status, reason and body. -/
def raise_for_status (resp : Response) : Except ApiError Unit :=
  if 400 ≤ resp.status then
    Except.error (ApiError.httpStatus resp.status resp.reason resp.body)
  else Except.ok ()

/-- `await resp.json(content_type=ct)`: with `ct = None` the body is
decoded regardless of the content-type header of the response; otherwise
the header must match the declared type, else a ContentTypeError. -/
def respJson (content_type : Option String) (resp : Response) : Except ApiError Json :=
  match content_type with
  | none => Except.ok resp.body
  | some ct =>
      if resp.contentTypeHeader = some ct then Except.ok resp.body
      else Except.error (ApiError.contentTypeMismatch ct resp.contentTypeHeader)

/-- `BaseSession.get`: on a live connection context, issue the GET request
and normalize the response; on `self._session = None`, fail before any
request is issued.  Result: (outcome, requests actually issued, the
session object afterwards; the method assigns no attribute, so the session
is returned unchanged). -/
def BaseSession.get (s : BaseSession) (url : String) (params : List (String × String))
    (content_type : Option String) (backend : Request → Response) :
    Except ApiError Json × List Request × BaseSession :=
  match s.sessionConn with
  | none => (Except.error ApiError.attributeError, [], s)
  | some _ =>
      let req := getRequest s url params content_type
      let resp := backend req
      match raise_for_status resp with
      | Except.error e => (Except.error e, [req], s)
      | Except.ok _ => (respJson content_type resp, [req], s)

/-- `BaseSession.post`, same shape as `get` but with a JSON body and no
query parameters. -/
def BaseSession.post (s : BaseSession) (url : String) (json : Option Json)
    (content_type : Option String) (backend : Request → Response) :
    Except ApiError Json × List Request × BaseSession :=
  match s.sessionConn with
  | none => (Except.error ApiError.attributeError, [], s)
  | some _ =>
      let req := postRequest s url json content_type
      let resp := backend req
      match raise_for_status resp with
      | Except.error e => (Except.error e, [req], s)
      | Except.ok _ => (respJson content_type resp, [req], s)

/-- `BaseSession.delete`, same shape as `post` but with no body. -/
def BaseSession.delete (s : BaseSession) (url : String)
    (content_type : Option String) (backend : Request → Response) :
    Except ApiError Json × List Request × BaseSession :=
  match s.sessionConn with
  | none => (Except.error ApiError.attributeError, [], s)
  | some _ =>
      let req := deleteRequest s url content_type
      let resp := backend req
      match raise_for_status resp with
      | Except.error e => (Except.error e, [req], s)
      | Except.ok _ => (respJson content_type resp, [req], s)

/-- Python dict subscription `d[k]` on a decoded JSON value: KeyError on a
missing key, TypeError when the value is not a dict. -/
def Json.getKey : Json → String → Except ApiError Json
  | Json.obj fields, k =>
      match fields.lookup k with
      | some v => Except.ok v
      | none => Except.error (ApiError.keyError k)
  | _, _ => Except.error ApiError.typeError

/-- Python list subscription `l[i]` on a decoded JSON value: IndexError
out of range, TypeError when the value is not a list. -/
def Json.index : Json → Nat → Except ApiError Json
  | Json.arr items, i =>
      match items[i]? with
      | some v => Except.ok v
      | none => Except.error (ApiError.indexError i)
  | _, _ => Except.error ApiError.typeError

/-- `AuthSession.__init__`: definition defaults to auth, version to v4. -/
def mkAuthSession (url : String) (ssl : Bool) : BaseSession :=
  { url := url, definition := "auth", version := "v4", ssl := ssl, sessionConn := none }

/-- `DnsProxySession.__init__`: definition dnsproxy, version v3. -/
def mkDnsProxySession (url : String) (ssl : Bool) : BaseSession :=
  { url := url, definition := "dnsproxy", version := "v3", ssl := ssl, sessionConn := none }

/-- `IpSession.__init__`: definition ip, version v3. -/
def mkIpSession (url : String) (ssl : Bool) : BaseSession :=
  { url := url, definition := "ip", version := "v3", ssl := ssl, sessionConn := none }

/-- `VmSession.__init__`: definition vm, version v3. -/
def mkVmSession (url : String) (ssl : Bool) : BaseSession :=
  { url := url, definition := "vm", version := "v3", ssl := ssl, sessionConn := none }

/-- `AuthSession.get_key`: POST `/user/{email_or_id}/key`. -/
def AuthSession.get_key (s : BaseSession) (email_or_id : String)
    (backend : Request → Response) :
    Except ApiError Json × List Request × BaseSession :=
  BaseSession.post s ("/user/" ++ email_or_id ++ "/key") none (some "application/json") backend

/-- `AuthSession.whoami`: GET `/whoami`. -/
def AuthSession.whoami (s : BaseSession) (backend : Request → Response) :
    Except ApiError Json × List Request × BaseSession :=
  BaseSession.get s "/whoami" [] (some "application/json") backend

/-- The JSON body `get_token` posts: the dict with keys email, password. -/
def tokenRequestBody (email password : String) : Json :=
  Json.obj [("email", Json.str email), ("password", Json.str password)]

/-- How a run of `AuthSession.get_token` ends: `success` returns the
decoded body; `exited` models `sys.exit(code)` after `print(error)` with
the printed last error; `returnedNone` models falling off the `while`
loop, which returns Python `None`; `raised` models an exception other
than ClientResponseError propagating out of the `try`. -/
inductive TokenOutcome where
  | success (body : Json)
  | exited (code : Nat) (lastError : ApiError)
  | returnedNone
  | raised (e : ApiError)

/-- Observable trace of one `get_token` call: every POST request issued,
how many one-second sleeps were awaited, the value of the `attempts`
variable at the top of each executed loop iteration, and the outcome. -/
structure TokenTrace where
  requests : List Request
  sleeps : Nat
  attemptsTrace : List Nat
  outcome : TokenOutcome

/-- The `while attempts:` loop of `AuthSession.get_token`, translated
iteration by iteration.  `backend i` answers the POST of iteration `i`
(iterations counted from 0).  Each iteration posts `/public/token` with
body `tokenRequestBody email password` and `content_type=None`; on
success the response is returned; on ClientResponseError the code sleeps
one second, decrements `attempts`, and when `attempts` hits zero prints
the error and calls `sys.exit(1)`. -/
def get_token_go (s : BaseSession) (email password : String)
    (backend : Nat → Request → Response) (i : Nat) : Nat → TokenTrace
  | 0 => { requests := [], sleeps := 0, attemptsTrace := [], outcome := TokenOutcome.returnedNone }
  | a + 1 =>
      let r := BaseSession.post s "/public/token" (some (tokenRequestBody email password))
        none (backend i)
      match r.1 with
      | Except.ok response =>
          { requests := r.2.1, sleeps := 0, attemptsTrace := [a + 1],
            outcome := TokenOutcome.success response }
      | Except.error (ApiError.httpStatus st rs bd) =>
          if a = 0 then
            { requests := r.2.1, sleeps := 1, attemptsTrace := [a + 1],
              outcome := TokenOutcome.exited 1 (ApiError.httpStatus st rs bd) }
          else
            let t := get_token_go s email password backend (i + 1) a
            { requests := r.2.1 ++ t.requests, sleeps := 1 + t.sleeps,
              attemptsTrace := (a + 1) :: t.attemptsTrace, outcome := t.outcome }
      | Except.error e =>
          { requests := r.2.1, sleeps := 0, attemptsTrace := [a + 1],
            outcome := TokenOutcome.raised e }

/-- `AuthSession.get_token(email, password, attempts)` (default 3). -/
def AuthSession.get_token (s : BaseSession) (email password : String)
    (backend : Nat → Request → Response) (attempts : Nat) : TokenTrace :=
  get_token_go s email password backend 0 attempts

/-- `VmSession.get_task`: GET `/task/{task_id}`. -/
def VmSession.get_task (s : BaseSession) (task_id : Nat) (backend : Request → Response) :
    Except ApiError Json × List Request × BaseSession :=
  BaseSession.get s ("/task/" ++ Nat.repr task_id) [] (some "application/json") backend

/-- `VmSession.get_task_by_consul_id`: GET `/task` with query parameter
`where = consul_id+EQ+{consul_id}`, then `response['list'][0]`. -/
def VmSession.get_task_by_consul_id (s : BaseSession) (consul_id : Nat)
    (backend : Request → Response) :
    Except ApiError Json × List Request × BaseSession :=
  let r := BaseSession.get s "/task" [("where", "consul_id+EQ+" ++ Nat.repr consul_id)]
    (some "application/json") backend
  match r.1 with
  | Except.error e => (Except.error e, r.2)
  | Except.ok response => ((Json.getKey response "list").bind (fun l => Json.index l 0), r.2)

/-- `VmSession.host_create`: POST `/host` with body `host_params`. -/
def VmSession.host_create (s : BaseSession) (host_params : Json)
    (backend : Request → Response) :
    Except ApiError Json × List Request × BaseSession :=
  BaseSession.post s "/host" (some host_params) (some "application/json") backend

/-- `VmSession.host_delete`: DELETE `/host/{host_id}`. -/
def VmSession.host_delete (s : BaseSession) (host_id : Nat)
    (backend : Request → Response) :
    Except ApiError Json × List Request × BaseSession :=
  BaseSession.delete s ("/host/" ++ Nat.repr host_id) (some "application/json") backend

/-- `VmSession.host_edit`: POST `/host/{host_id}` with body `host_params`. -/
def VmSession.host_edit (s : BaseSession) (host_id : Nat) (host_params : Json)
    (backend : Request → Response) :
    Except ApiError Json × List Request × BaseSession :=
  BaseSession.post s ("/host/" ++ Nat.repr host_id) (some host_params)
    (some "application/json") backend

/-- Number of adjacent double-slash pairs in a character list; zero means
the path contains no double slash. -/
def countDoubleSlash : List Char → Nat
  | a :: b :: rest => (if a = '/' && b = '/' then 1 else 0) + countDoubleSlash (b :: rest)
  | _ => 0

/-! ### Helper lemmas -/

/-- A list whose elements each encode to themselves is unchanged by the
character-wise encoding. -/
lemma flatMap_eq_self_of_singleton {f : Char → List Char} :
    ∀ l : List Char, (∀ c ∈ l, f c = [c]) → l.flatMap f = l := by
  intro l h
  induction l with
  | nil => rfl
  | cons c cs ih =>
      rw [List.flatMap_cons, h c (by simp), ih (fun d hd => h d (by simp [hd]))]
      rfl

/-- `quote_plus` distributes over string concatenation. -/
lemma quote_plus_append (safe : List Char) (x y : String) :
    quote_plus safe (x ++ y) = quote_plus safe x ++ quote_plus safe y := by
  apply String.ext
  simp [quote_plus, String.data_append, List.flatMap_append, List.asString]

/-- Every digit character produced by `Nat.digitChar` below ten is kept
verbatim by the encoder. -/
lemma quoteCharPlus_digitChar (n : Nat) (h : n < 10) :
    quoteCharPlus urlencodeSafe (Nat.digitChar n) = [Nat.digitChar n] := by
  interval_cases n <;> decide

/-- All characters accumulated by `Nat.toDigitsCore 10` are kept verbatim
by the encoder, provided the accumulator already is. -/
lemma toDigitsCore_quoteCharPlus :
    ∀ (f n : Nat) (acc : List Char),
      (∀ c ∈ acc, quoteCharPlus urlencodeSafe c = [c]) →
      ∀ c ∈ Nat.toDigitsCore 10 f n acc, quoteCharPlus urlencodeSafe c = [c] := by
  intro f
  induction f with
  | zero => intro n acc hacc; simpa [Nat.toDigitsCore] using hacc
  | succ f ih =>
      intro n acc hacc
      have hd : quoteCharPlus urlencodeSafe (Nat.digitChar (n % 10)) = [Nat.digitChar (n % 10)] :=
        quoteCharPlus_digitChar _ (Nat.mod_lt _ (by norm_num))
      simp only [Nat.toDigitsCore]
      split
      · intro c hc
        rcases List.mem_cons.mp hc with rfl | hc
        · exact hd
        · exact hacc c hc
      · refine ih (n / 10) (Nat.digitChar (n % 10) :: acc) ?_
        intro c hc
        rcases List.mem_cons.mp hc with rfl | hc
        · exact hd
        · exact hacc c hc

/-- The decimal representation of a natural number passes through
`quote_plus` unchanged (every digit is always-safe). -/
lemma quote_plus_repr (n : Nat) :
    quote_plus urlencodeSafe (Nat.repr n) = Nat.repr n := by
  apply String.ext
  show ((Nat.repr n).data.flatMap (quoteCharPlus urlencodeSafe)).asString.data = (Nat.repr n).data
  have h : ∀ c ∈ (Nat.repr n).data, quoteCharPlus urlencodeSafe c = [c] := by
    have : (Nat.repr n).data = Nat.toDigitsCore 10 (n + 1) n [] := rfl
    rw [this]
    exact toDigitsCore_quoteCharPlus (n + 1) n [] (by simp)
  rw [flatMap_eq_self_of_singleton _ h]
  rfl

/-- Dropping a leading non-slash character does not change the number of
double slashes. -/
lemma countDoubleSlash_cons (c : Char) (xs : List Char) (h : c ≠ '/') :
    countDoubleSlash (c :: xs) = countDoubleSlash xs := by
  cases xs with
  | nil => rfl
  | cons b rest => simp [countDoubleSlash, h]

/-- Prepending slash-free characters does not change the number of
double slashes. -/
lemma countDoubleSlash_append (l p : List Char) (h : ∀ c ∈ l, c ≠ '/') :
    countDoubleSlash (l ++ p) = countDoubleSlash p := by
  induction l with
  | nil => rfl
  | cons c cs ih =>
      rw [List.cons_append, countDoubleSlash_cons c _ (h c (by simp))]
      exact ih (fun d hd => h d (by simp [hd]))

/-- On a live connection context the `get` verb issues exactly its one
request. -/
lemma get_requests (s : BaseSession) (c : Nat) (u : String)
    (params : List (String × String)) (ct : Option String) (backend : Request → Response)
    (h : s.sessionConn = some c) :
    (BaseSession.get s u params ct backend).2.1 = [getRequest s u params ct] := by
  simp only [BaseSession.get, h]
  cases raise_for_status (backend (getRequest s u params ct)) <;> rfl

/-- On a live connection context the `post` verb issues exactly its one
request. -/
lemma post_requests (s : BaseSession) (c : Nat) (u : String)
    (json : Option Json) (ct : Option String) (backend : Request → Response)
    (h : s.sessionConn = some c) :
    (BaseSession.post s u json ct backend).2.1 = [postRequest s u json ct] := by
  simp only [BaseSession.post, h]
  cases raise_for_status (backend (postRequest s u json ct)) <;> rfl

/-- On a live connection context the `delete` verb issues exactly its one
request. -/
lemma delete_requests (s : BaseSession) (c : Nat) (u : String)
    (ct : Option String) (backend : Request → Response)
    (h : s.sessionConn = some c) :
    (BaseSession.delete s u ct backend).2.1 = [deleteRequest s u ct] := by
  simp only [BaseSession.delete, h]
  cases raise_for_status (backend (deleteRequest s u ct)) <;> rfl

/-- On a live connection context the result of `get` is raise-for-status
followed by the JSON decode. -/
lemma get_result (s : BaseSession) (c : Nat) (u : String)
    (params : List (String × String)) (ct : Option String) (backend : Request → Response)
    (h : s.sessionConn = some c) :
    (BaseSession.get s u params ct backend).1 =
      (raise_for_status (backend (getRequest s u params ct))).bind
        (fun _ => respJson ct (backend (getRequest s u params ct))) := by
  simp only [BaseSession.get, h]
  cases raise_for_status (backend (getRequest s u params ct)) <;> rfl

/-- On a live connection context the result of `post` is raise-for-status
followed by the JSON decode. -/
lemma post_result (s : BaseSession) (c : Nat) (u : String)
    (json : Option Json) (ct : Option String) (backend : Request → Response)
    (h : s.sessionConn = some c) :
    (BaseSession.post s u json ct backend).1 =
      (raise_for_status (backend (postRequest s u json ct))).bind
        (fun _ => respJson ct (backend (postRequest s u json ct))) := by
  simp only [BaseSession.post, h]
  cases raise_for_status (backend (postRequest s u json ct)) <;> rfl

/-- On a live connection context the result of `delete` is
raise-for-status followed by the JSON decode. -/
lemma delete_result (s : BaseSession) (c : Nat) (u : String)
    (ct : Option String) (backend : Request → Response)
    (h : s.sessionConn = some c) :
    (BaseSession.delete s u ct backend).1 =
      (raise_for_status (backend (deleteRequest s u ct))).bind
        (fun _ => respJson ct (backend (deleteRequest s u ct))) := by
  simp only [BaseSession.delete, h]
  cases raise_for_status (backend (deleteRequest s u ct)) <;> rfl

/-- The verbs return the session object unchanged (no method of the
source assigns any attribute). -/
lemma get_final_session (s : BaseSession) (u : String) (params : List (String × String))
    (ct : Option String) (backend : Request → Response) :
    (BaseSession.get s u params ct backend).2.2 = s := by
  cases hc : s.sessionConn with
  | none => simp [BaseSession.get, hc]
  | some c =>
      simp only [BaseSession.get, hc]
      cases raise_for_status (backend (getRequest s u params ct)) <;> rfl

lemma post_final_session (s : BaseSession) (u : String) (json : Option Json)
    (ct : Option String) (backend : Request → Response) :
    (BaseSession.post s u json ct backend).2.2 = s := by
  cases hc : s.sessionConn with
  | none => simp [BaseSession.post, hc]
  | some c =>
      simp only [BaseSession.post, hc]
      cases raise_for_status (backend (postRequest s u json ct)) <;> rfl

lemma delete_final_session (s : BaseSession) (u : String)
    (ct : Option String) (backend : Request → Response) :
    (BaseSession.delete s u ct backend).2.2 = s := by
  cases hc : s.sessionConn with
  | none => simp [BaseSession.delete, hc]
  | some c =>
      simp only [BaseSession.delete, hc]
      cases raise_for_status (backend (deleteRequest s u ct)) <;> rfl

/-- The per-attempt POST request of `get_token`. -/
def tokenPostRequest (s : BaseSession) (email password : String) : Request :=
  postRequest s "/public/token" (some (tokenRequestBody email password)) none

/-- Auxiliary: the data of the one-character string slash. -/
lemma slash_data : ("/" : String).data = ['/'] := rfl

/-! ### Claim theorems -/

/-- C10: `get_token` with `attempts = 0` never executes the loop body: it
issues no HTTP request, sleeps zero times, records no iteration, and ends
by returning Python `None` — neither a success value nor the fatal
exhaustion exit. -/
theorem get_token_zero_attempts_returns_none (s : BaseSession)
    (email password : String) (backend : Nat → Request → Response) :
    AuthSession.get_token s email password backend 0 =
      { requests := [], sleeps := 0, attemptsTrace := [],
        outcome := TokenOutcome.returnedNone } := rfl

/-- C8: the connection context is a scoped resource: session entry creates
it; the exit path (with or without a pending error) closes it exactly once
and clears the session; after exit each verb fails with an attribute error
and issues no request; a second exit without re-entry also fails, so no
double release happens. -/
theorem connection_context_scoped (s : BaseSession) (w : ConnWorld)
    (err err2 : Option ApiError) (u : String) (params : List (String × String))
    (json : Option Json) (ct : Option String) (backend : Request → Response) :
    ((s.aenter w).1.sessionConn = some w.nextId) ∧
    ((s.aenter w).1.aexit err (s.aenter w).2 =
      Except.ok ({ (s.aenter w).1 with sessionConn := none },
        { (s.aenter w).2 with closeLog := (s.aenter w).2.closeLog ++ [w.nextId] })) ∧
    (BaseSession.get { (s.aenter w).1 with sessionConn := none } u params ct backend =
      (Except.error ApiError.attributeError, [],
        { (s.aenter w).1 with sessionConn := none })) ∧
    (BaseSession.post { (s.aenter w).1 with sessionConn := none } u json ct backend =
      (Except.error ApiError.attributeError, [],
        { (s.aenter w).1 with sessionConn := none })) ∧
    (BaseSession.delete { (s.aenter w).1 with sessionConn := none } u ct backend =
      (Except.error ApiError.attributeError, [],
        { (s.aenter w).1 with sessionConn := none })) ∧
    (BaseSession.aexit { (s.aenter w).1 with sessionConn := none } err2
        { (s.aenter w).2 with closeLog := (s.aenter w).2.closeLog ++ [w.nextId] } =
      Except.error ApiError.attributeError) :=
  ⟨rfl, rfl, rfl, rfl, rfl, rfl⟩

/-- C9: the session configuration (url, definition, version, ssl flag) is
never changed by any operation — entry, exit, the three verbs, or the
domain methods — and the derived endpoint always equals
`/{definition}/{version}`. -/
theorem session_config_immutable (s s2 : BaseSession) (w w2 : ConnWorld)
    (err : Option ApiError) (u email_or_id email password : String)
    (params : List (String × String)) (json : Option Json) (ct : Option String)
    (task_id consul_id host_id : Nat) (host_params : Json)
    (backend : Request → Response) :
    ((s.aenter w).1.url = s.url ∧ (s.aenter w).1.definition = s.definition ∧
      (s.aenter w).1.version = s.version ∧ (s.aenter w).1.ssl = s.ssl) ∧
    (s.aexit err w = Except.ok (s2, w2) →
      s2.url = s.url ∧ s2.definition = s.definition ∧
      s2.version = s.version ∧ s2.ssl = s.ssl) ∧
    ((s.get u params ct backend).2.2 = s ∧ (s.post u json ct backend).2.2 = s ∧
      (s.delete u ct backend).2.2 = s) ∧
    ((AuthSession.get_key s email_or_id backend).2.2 = s ∧
      (AuthSession.whoami s backend).2.2 = s ∧
      (VmSession.get_task s task_id backend).2.2 = s ∧
      (VmSession.get_task_by_consul_id s consul_id backend).2.2 = s ∧
      (VmSession.host_create s host_params backend).2.2 = s ∧
      (VmSession.host_delete s host_id backend).2.2 = s ∧
      (VmSession.host_edit s host_id host_params backend).2.2 = s) ∧
    s.endpoint = "/" ++ s.definition ++ "/" ++ s.version := by
  refine ⟨⟨rfl, rfl, rfl, rfl⟩, ?_, ⟨get_final_session .., post_final_session ..,
    delete_final_session ..⟩, ⟨post_final_session .., get_final_session ..,
    get_final_session .., ?_, post_final_session .., delete_final_session ..,
    post_final_session ..⟩, rfl⟩
  · intro h
    cases hc : s.sessionConn with
    | none =>
        simp only [BaseSession.aexit, hc] at h
        exact Except.noConfusion h
    | some c =>
        simp only [BaseSession.aexit, hc, Except.ok.injEq, Prod.mk.injEq] at h
        rw [← h.1]
        exact ⟨rfl, rfl, rfl, rfl⟩
  · simp only [VmSession.get_task_by_consul_id]
    cases hr : (BaseSession.get s "/task" [("where", "consul_id+EQ+" ++ Nat.repr consul_id)]
        (some "application/json") backend).1 <;>
      simp [hr, get_final_session]

/-- Witness for C9 at a concrete session: exiting an entered auth session
preserves every configuration field. -/
theorem session_config_immutable_witness :
    (⟨"h", "auth", "v4", true, none⟩ : BaseSession).url =
      (⟨"h", "auth", "v4", true, some 5⟩ : BaseSession).url ∧
    (⟨"h", "auth", "v4", true, none⟩ : BaseSession).definition =
      (⟨"h", "auth", "v4", true, some 5⟩ : BaseSession).definition ∧
    (⟨"h", "auth", "v4", true, none⟩ : BaseSession).version =
      (⟨"h", "auth", "v4", true, some 5⟩ : BaseSession).version ∧
    (⟨"h", "auth", "v4", true, none⟩ : BaseSession).ssl =
      (⟨"h", "auth", "v4", true, some 5⟩ : BaseSession).ssl :=
  (session_config_immutable ⟨"h", "auth", "v4", true, some 5⟩
    ⟨"h", "auth", "v4", true, none⟩ ⟨6, []⟩ ⟨6, [5]⟩ none "" "" "" "" [] none none
    0 0 0 Json.null (fun _ => ⟨200, "", none, Json.null⟩)).2.1 rfl

/-- C5: every verb sends exactly `endpoint ++ p` as the request path (the
query suffix, for `get`, comes after it), and when the definition and
version segments are nonempty and slash-free the concatenation introduces
no double slash beyond those already inside `p`. -/
theorem request_path_prefixing (s : BaseSession) (p : String)
    (params : List (String × String)) (json : Option Json) (ct : Option String) :
    (getRequest s p params ct).url =
      s.endpoint ++ p ++ (if urlencode params = "" then "" else "?" ++ urlencode params) ∧
    (postRequest s p json ct).url = s.endpoint ++ p ∧
    (deleteRequest s p ct).url = s.endpoint ++ p ∧
    (s.definition ≠ "" → s.version ≠ "" →
      (∀ c ∈ s.definition.data, c ≠ '/') → (∀ c ∈ s.version.data, c ≠ '/') →
      countDoubleSlash (s.endpoint ++ p).data = countDoubleSlash p.data) := by
  refine ⟨?_, rfl, rfl, ?_⟩
  · unfold getRequest buildGetUrl
    by_cases h : urlencode params = ""
    · simp [h, String.append_empty]
    · simp [h, String.append_assoc]
  · intro hd hv hd2 hv2
    have hdata : (s.endpoint ++ p).data =
        '/' :: (s.definition.data ++ ('/' :: (s.version.data ++ p.data))) := by
      simp [BaseSession.endpoint, String.data_append, slash_data]
    rw [hdata]
    rcases hdl : s.definition.data with _ | ⟨dh, dt⟩
    · exact absurd (String.ext (hdl.trans rfl)) hd
    · have hdh : dh ≠ '/' := hd2 dh (by rw [hdl]; simp)
      rw [List.cons_append]
      have hstep : countDoubleSlash ('/' :: dh :: (dt ++ ('/' :: (s.version.data ++ p.data)))) =
          countDoubleSlash (dh :: (dt ++ ('/' :: (s.version.data ++ p.data)))) := by
        simp [countDoubleSlash, hdh]
      rw [hstep, ← List.cons_append,
        countDoubleSlash_append (dh :: dt) _ (by rw [← hdl]; exact hd2)]
      rcases hvl : s.version.data with _ | ⟨vh, vt⟩
      · exact absurd (String.ext (hvl.trans rfl)) hv
      · have hvh : vh ≠ '/' := hv2 vh (by rw [hvl]; simp)
        rw [List.cons_append]
        have hstep2 : countDoubleSlash ('/' :: vh :: (vt ++ p.data)) =
            countDoubleSlash (vh :: (vt ++ p.data)) := by
          simp [countDoubleSlash, hvh]
        rw [hstep2, ← List.cons_append,
          countDoubleSlash_append (vh :: vt) _ (by rw [← hvl]; exact hv2)]

/-- Witness for C5 at the default vm session and the path `/task`: the
prefixed path has exactly as many double slashes as the relative path. -/
theorem request_path_prefixing_witness :
    countDoubleSlash ((mkVmSession "h" true).endpoint ++ "/task").data =
      countDoubleSlash ("/task" : String).data :=
  (request_path_prefixing (mkVmSession "h" true) "/task" [] none none).2.2.2
    (by decide) (by decide) (by decide) (by decide)

/-- C1: `get_token` with `attempts = 3` against a backend answering 503 to
the first two POSTs of `/public/token` and 2xx to the third: exactly three
POSTs are issued, exactly two one-second sleeps occur, the remaining
attempts counter runs 3, 2, 1, and the call returns the decoded body of
the third response. -/
theorem get_token_two_503_then_success (s : BaseSession) (conn : Nat)
    (email password : String) (errBody okBody : Json) (errReason okReason : String)
    (hdr1 hdr2 : Option String) (okStatus : Nat)
    (hconn : s.sessionConn = some conn) (hok : 200 ≤ okStatus ∧ okStatus < 300) :
    AuthSession.get_token s email password
      (fun i _ =>
        if i < 2 then ⟨503, errReason, hdr1, errBody⟩
        else ⟨okStatus, okReason, hdr2, okBody⟩) 3 =
    { requests := [tokenPostRequest s email password, tokenPostRequest s email password,
        tokenPostRequest s email password],
      sleeps := 2, attemptsTrace := [3, 2, 1],
      outcome := TokenOutcome.success okBody } := by
  have h400 : ¬ (400 ≤ okStatus) := by omega
  simp only [AuthSession.get_token, get_token_go, BaseSession.post, hconn,
    raise_for_status, respJson, tokenPostRequest, postRequest]
  norm_num [h400]

/-- Witness for C1 at a concrete entered auth session and status 200. -/
theorem get_token_two_503_then_success_witness :
    ((⟨"h", "auth", "v4", true, some 0⟩ : BaseSession).sessionConn = some 0 ∧
      (200 ≤ 200 ∧ 200 < 300)) ∧
    AuthSession.get_token (⟨"h", "auth", "v4", true, some 0⟩ : BaseSession) "e" "p"
      (fun i _ =>
        if i < 2 then ⟨503, "Service Unavailable", none, Json.null⟩
        else ⟨200, "OK", none, Json.str "tok"⟩) 3 =
    { requests := [tokenPostRequest ⟨"h", "auth", "v4", true, some 0⟩ "e" "p",
        tokenPostRequest ⟨"h", "auth", "v4", true, some 0⟩ "e" "p",
        tokenPostRequest ⟨"h", "auth", "v4", true, some 0⟩ "e" "p"],
      sleeps := 2, attemptsTrace := [3, 2, 1],
      outcome := TokenOutcome.success (Json.str "tok") } :=
  ⟨⟨rfl, by decide⟩,
    get_token_two_503_then_success ⟨"h", "auth", "v4", true, some 0⟩ 0 "e" "p"
      Json.null (Json.str "tok") "Service Unavailable" "OK" none none 200 rfl (by decide)⟩

/-- C2 (amended): `get_token` with `attempts = 2` against a backend that
always answers 503 issues exactly two POSTs and sleeps exactly twice —
once between the attempts and once after the final failed attempt, because
the source sleeps before checking exhaustion — then terminates the process
with exit code 1 after reporting the last HttpStatusError (no normal
return value). -/
theorem get_token_exhausted_two_attempts (s : BaseSession) (conn : Nat)
    (email password : String) (reasons : Nat → String) (bodies : Nat → Json)
    (hdrs : Nat → Option String) (hconn : s.sessionConn = some conn) :
    AuthSession.get_token s email password
      (fun i _ => ⟨503, reasons i, hdrs i, bodies i⟩) 2 =
    { requests := [tokenPostRequest s email password, tokenPostRequest s email password],
      sleeps := 2, attemptsTrace := [2, 1],
      outcome := TokenOutcome.exited 1 (ApiError.httpStatus 503 (reasons 1) (bodies 1)) } := by
  simp only [AuthSession.get_token, get_token_go, BaseSession.post, hconn,
    raise_for_status, respJson, tokenPostRequest, postRequest]
  norm_num

/-- Witness for C2's amended statement at a concrete session, with
distinguishable error bodies so that the exit carries the last error. -/
theorem get_token_exhausted_two_attempts_witness :
    ((⟨"h", "auth", "v4", true, some 0⟩ : BaseSession).sessionConn = some 0) ∧
    AuthSession.get_token (⟨"h", "auth", "v4", true, some 0⟩ : BaseSession) "e" "p"
      (fun i _ => ⟨503, "Service Unavailable", none, Json.num (Int.ofNat i)⟩) 2 =
    { requests := [tokenPostRequest ⟨"h", "auth", "v4", true, some 0⟩ "e" "p",
        tokenPostRequest ⟨"h", "auth", "v4", true, some 0⟩ "e" "p"],
      sleeps := 2, attemptsTrace := [2, 1],
      outcome := TokenOutcome.exited 1
        (ApiError.httpStatus 503 "Service Unavailable" (Json.num 1)) } :=
  ⟨rfl,
    get_token_exhausted_two_attempts ⟨"h", "auth", "v4", true, some 0⟩ 0 "e" "p"
      (fun _ => "Service Unavailable") (fun i => Json.num (Int.ofNat i)) (fun _ => none) rfl⟩

/-- Counterexample to C2 as stated: with `attempts = 2` and a backend that
always answers 503, the number of one-second delays is two, not one — the
source sleeps after the final failed attempt as well, before exiting. -/
theorem get_token_exhausted_sleeps_counterexample :
    (AuthSession.get_token (⟨"h", "auth", "v4", true, some 0⟩ : BaseSession) "e" "p"
        (fun _ _ => ⟨503, "Service Unavailable", none, Json.null⟩) 2).sleeps = 2 ∧
    ¬ (AuthSession.get_token (⟨"h", "auth", "v4", true, some 0⟩ : BaseSession) "e" "p"
        (fun _ _ => ⟨503, "Service Unavailable", none, Json.null⟩) 2).sleeps = 1 :=
  ⟨rfl, by decide⟩

/-- Auxiliary: intercalate over a one-element list. -/
lemma intercalate_singleton (x : String) : String.intercalate "&" [x] = x := rfl

/-- The query string of `get_task_by_consul_id` survives encoding
verbatim: every character of the filter value is safe. -/
lemma urlencode_where (cid : Nat) :
    urlencode [("where", "consul_id+EQ+" ++ Nat.repr cid)] =
      "where=consul_id+EQ+" ++ Nat.repr cid := by
  unfold urlencode
  simp only [List.map_cons, List.map_nil]
  rw [intercalate_singleton, quote_plus_append]
  rw [show quote_plus urlencodeSafe "where" = "where" from rfl,
    show quote_plus urlencodeSafe "consul_id+EQ+" = "consul_id+EQ+" from rfl,
    quote_plus_repr, ← String.append_assoc]
  rfl

/-- The encoded filter query string is never empty. -/
lemma where_ne_empty (cid : Nat) : "where=consul_id+EQ+" ++ Nat.repr cid ≠ "" := by
  intro h
  have h2 := congrArg String.data h
  rw [String.data_append] at h2
  rcases List.append_eq_nil.mp h2 with ⟨h3, _⟩
  exact absurd h3 (by decide)

/-- The full url built by `get` for the consul-id filter. -/
lemma buildGetUrl_where (s : BaseSession) (cid : Nat) :
    buildGetUrl s "/task" [("where", "consul_id+EQ+" ++ Nat.repr cid)] =
      s.endpoint ++ "/task?where=consul_id+EQ+" ++ Nat.repr cid := by
  simp only [buildGetUrl, urlencode_where]
  rw [if_neg (where_ne_empty cid)]
  apply String.ext
  simp [String.data_append, List.append_assoc]

/-- Counterexample to C4 as stated: a space inside a value is not
percent-encoded — it becomes a literal plus sign, and no percent sign at
all occurs in the encoding of `k = a b`. -/
theorem query_encoding_space_counterexample :
    urlencode [("k", "a b")] = "k=a+b" ∧
    ¬ ('%' ∈ (urlencode [("k", "a b")]).data) := ⟨by decide, by decide⟩

/-- C4 (amended): the characters plus, apostrophe and parentheses are
preserved literally by the query encoding; ampersand and equals inside
values are percent-encoded to `%26` and `%3D`; a space is encoded as a
literal plus (not percent-encoded); the encoding works character by
character; and the question-mark suffix is appended exactly when the
encoded query string is non-empty — an empty mapping yields no suffix. -/
theorem query_encoding_amended (s : BaseSession) (p : String)
    (params : List (String × String)) (c : Char) (v : String) :
    (c ∈ urlencodeSafe → quoteCharPlus urlencodeSafe c = [c]) ∧
    quoteCharPlus urlencodeSafe (Char.ofNat 32) = ['+'] ∧
    quoteCharPlus urlencodeSafe '&' = ['%', '2', '6'] ∧
    quoteCharPlus urlencodeSafe '=' = ['%', '3', 'D'] ∧
    (quote_plus urlencodeSafe v).data = v.data.flatMap (quoteCharPlus urlencodeSafe) ∧
    urlencode [] = "" ∧
    buildGetUrl s p [] = s.endpoint ++ p ∧
    (urlencode params ≠ "" →
      buildGetUrl s p params = s.endpoint ++ p ++ ("?" ++ urlencode params)) := by
  refine ⟨?_, rfl, rfl, rfl, rfl, rfl, rfl, ?_⟩
  · intro h
    fin_cases h <;> rfl
  · intro h
    simp [buildGetUrl, h, String.append_assoc]

/-- Witness for C4's amended statement: the plus sign is in the safe set
and survives; a backend-filter value with plus, parentheses and a space
produces a non-empty query string appended after a question mark. -/
theorem query_encoding_amended_witness :
    (('+' : Char) ∈ urlencodeSafe ∧ urlencode [("f", "a+EQ+(b) c")] ≠ "") ∧
    quoteCharPlus urlencodeSafe '+' = ['+'] ∧
    buildGetUrl (⟨"h", "vm", "v3", true, some 0⟩ : BaseSession) "/task"
        [("f", "a+EQ+(b) c")] =
      (⟨"h", "vm", "v3", true, some 0⟩ : BaseSession).endpoint ++ "/task" ++
        ("?" ++ urlencode [("f", "a+EQ+(b) c")]) :=
  ⟨⟨by decide, by decide⟩,
    (query_encoding_amended ⟨"h", "vm", "v3", true, some 0⟩ "/task" [("f", "a+EQ+(b) c")]
      '+' "v").1 (by decide),
    (query_encoding_amended ⟨"h", "vm", "v3", true, some 0⟩ "/task" [("f", "a+EQ+(b) c")]
      '+' "v").2.2.2.2.2.2.2 (by decide)⟩

/-- C6: `get_task_by_consul_id` issues a GET of
`/task?where=consul_id+EQ+{consul_id}` (the filter survives encoding);
on the list wrapper with one element it returns element 0; on an empty
list it fails with the uncaught IndexError of `response['list'][0]`. -/
theorem get_task_by_consul_id_contract (s : BaseSession) (conn consul_id : Nat)
    (x : Json) (rsn : String) (backend : Request → Response)
    (hconn : s.sessionConn = some conn) :
    ((VmSession.get_task_by_consul_id s consul_id backend).2.1 =
      [{ method := HttpMethod.GET,
         url := s.endpoint ++ "/task?where=consul_id+EQ+" ++ Nat.repr consul_id,
         jsonBody := none, content_type := some "application/json", ssl := s.ssl }]) ∧
    ((VmSession.get_task_by_consul_id s consul_id
        (fun _ => ⟨200, rsn, some "application/json", Json.obj [("list", Json.arr [x])]⟩)).1 =
      Except.ok x) ∧
    ((VmSession.get_task_by_consul_id s consul_id
        (fun _ => ⟨200, rsn, some "application/json", Json.obj [("list", Json.arr [])]⟩)).1 =
      Except.error (ApiError.indexError 0)) := by
  refine ⟨?_, ?_, ?_⟩
  · simp only [VmSession.get_task_by_consul_id]
    cases hr : (BaseSession.get s "/task" [("where", "consul_id+EQ+" ++ Nat.repr consul_id)]
        (some "application/json") backend).1 <;>
      simp [hr, get_requests _ _ _ _ _ _ hconn, getRequest, buildGetUrl_where]
  · simp only [VmSession.get_task_by_consul_id, get_result _ _ _ _ _ _ hconn]
    norm_num [raise_for_status, respJson, Json.getKey, Json.index, Except.bind, List.lookup]
  · simp only [VmSession.get_task_by_consul_id, get_result _ _ _ _ _ _ hconn]
    norm_num [raise_for_status, respJson, Json.getKey, Json.index, Except.bind, List.lookup]

/-- Witness for C6 at consul id 7 with the documented example bodies. -/
theorem get_task_by_consul_id_contract_witness :
    ((⟨"h", "vm", "v3", true, some 0⟩ : BaseSession).sessionConn = some 0) ∧
    ((VmSession.get_task_by_consul_id (⟨"h", "vm", "v3", true, some 0⟩ : BaseSession) 7
        (fun _ => ⟨200, "OK", some "application/json",
          Json.obj [("list", Json.arr [Json.obj [("id", Json.num 42)]])]⟩)).1 =
      Except.ok (Json.obj [("id", Json.num 42)])) ∧
    ((VmSession.get_task_by_consul_id (⟨"h", "vm", "v3", true, some 0⟩ : BaseSession) 7
        (fun _ => ⟨200, "OK", some "application/json",
          Json.obj [("list", Json.arr [])]⟩)).1 =
      Except.error (ApiError.indexError 0)) :=
  ⟨rfl,
    (get_task_by_consul_id_contract ⟨"h", "vm", "v3", true, some 0⟩ 0 7
      (Json.obj [("id", Json.num 42)]) "OK"
      (fun _ => ⟨200, "OK", some "application/json", Json.obj [("list", Json.arr [])]⟩)
      rfl).2.1,
    (get_task_by_consul_id_contract ⟨"h", "vm", "v3", true, some 0⟩ 0 7
      (Json.obj [("id", Json.num 42)]) "OK"
      (fun _ => ⟨200, "OK", some "application/json", Json.obj [("list", Json.arr [])]⟩)
      rfl).2.2⟩

/-- C3: on each of the three verbs, a response with status 400 or higher
fails with the HttpStatusError carrying status, reason and body, while a
response with status in the 200 to 399 range (and a matching content-type
header for the default declared type) returns the JSON-decoded body. -/
theorem http_status_error_contract (s : BaseSession) (conn : Nat) (u : String)
    (params : List (String × String)) (json : Option Json) (resp : Response)
    (hconn : s.sessionConn = some conn) :
    (400 ≤ resp.status →
      ((BaseSession.get s u params (some "application/json") (fun _ => resp)).1 =
          Except.error (ApiError.httpStatus resp.status resp.reason resp.body) ∧
        (BaseSession.post s u json (some "application/json") (fun _ => resp)).1 =
          Except.error (ApiError.httpStatus resp.status resp.reason resp.body) ∧
        (BaseSession.delete s u (some "application/json") (fun _ => resp)).1 =
          Except.error (ApiError.httpStatus resp.status resp.reason resp.body))) ∧
    (200 ≤ resp.status → resp.status < 400 →
      resp.contentTypeHeader = some "application/json" →
      ((BaseSession.get s u params (some "application/json") (fun _ => resp)).1 =
          Except.ok resp.body ∧
        (BaseSession.post s u json (some "application/json") (fun _ => resp)).1 =
          Except.ok resp.body ∧
        (BaseSession.delete s u (some "application/json") (fun _ => resp)).1 =
          Except.ok resp.body)) := by
  constructor
  · intro h
    refine ⟨?_, ?_, ?_⟩ <;>
      simp [get_result _ _ _ _ _ _ hconn, post_result _ _ _ _ _ _ hconn,
        delete_result _ _ _ _ _ hconn, raise_for_status, h, Except.bind]
  · intro h1 h2 hct
    have h400 : ¬ (400 ≤ resp.status) := by omega
    refine ⟨?_, ?_, ?_⟩ <;>
      simp [get_result _ _ _ _ _ _ hconn, post_result _ _ _ _ _ _ hconn,
        delete_result _ _ _ _ _ hconn, raise_for_status, h400, Except.bind,
        respJson, hct]

/-- Witness for C3: the documented 404 example on `get` and a 200 success
on `delete`. -/
theorem http_status_error_contract_witness :
    ((⟨"h", "vm", "v3", true, some 0⟩ : BaseSession).sessionConn = some 0 ∧
      400 ≤ 404 ∧ 200 ≤ 200 ∧ 200 < 400) ∧
    (BaseSession.get (⟨"h", "vm", "v3", true, some 0⟩ : BaseSession) "/host" []
        (some "application/json")
        (fun _ => ⟨404, "Not Found", some "application/json",
          Json.obj [("error", Json.str "not found")]⟩)).1 =
      Except.error (ApiError.httpStatus 404 "Not Found"
        (Json.obj [("error", Json.str "not found")])) ∧
    (BaseSession.delete (⟨"h", "vm", "v3", true, some 0⟩ : BaseSession) "/host"
        (some "application/json")
        (fun _ => ⟨200, "OK", some "application/json", Json.str "gone"⟩)).1 =
      Except.ok (Json.str "gone") :=
  ⟨⟨rfl, by decide, by decide, by decide⟩,
    ((http_status_error_contract ⟨"h", "vm", "v3", true, some 0⟩ 0 "/host" [] none
        ⟨404, "Not Found", some "application/json", Json.obj [("error", Json.str "not found")]⟩
        rfl).1 (by decide)).1,
    (((http_status_error_contract ⟨"h", "vm", "v3", true, some 0⟩ 0 "/host" [] none
        ⟨200, "OK", some "application/json", Json.str "gone"⟩
        rfl).2 (by decide) (by decide) rfl).2).2⟩

/-- C7: every domain method issues exactly its documented HTTP method,
path and body against the default endpoints: `get_key` POSTs
`/user/../key`, `get_token` POSTs `/public/token` with the email-password
body and no declared content type (so decoding ignores the server's
content-type header), `whoami` GETs `/whoami`, `get_task` GETs
`/task/{id}`, `get_task_by_consul_id` GETs the filter query,
`host_create` POSTs `/host`, `host_delete` DELETEs `/host/{id}`,
`host_edit` POSTs `/host/{id}`; default endpoints are `/auth/v4` and
`/vm/v3` (and `/dnsproxy/v3`, `/ip/v3`). -/
theorem domain_method_contracts (u : String) (ssl : Bool) (w : ConnWorld)
    (email_or_id email password : String) (task_id consul_id host_id : Nat)
    (host_params : Json) (backend : Request → Response)
    (nbackend : Nat → Request → Response) (a : Nat) (resp : Response) :
    (mkAuthSession u ssl).endpoint = "/auth/v4" ∧
    (mkVmSession u ssl).endpoint = "/vm/v3" ∧
    (mkDnsProxySession u ssl).endpoint = "/dnsproxy/v3" ∧
    (mkIpSession u ssl).endpoint = "/ip/v3" ∧
    (AuthSession.get_key ((mkAuthSession u ssl).aenter w).1 email_or_id backend).2.1 =
      [⟨HttpMethod.POST, "/auth/v4/user/" ++ email_or_id ++ "/key", none,
        some "application/json", ssl⟩] ∧
    (AuthSession.get_token ((mkAuthSession u ssl).aenter w).1 email password
        nbackend (a + 1)).requests.head? =
      some ⟨HttpMethod.POST, "/auth/v4/public/token",
        some (tokenRequestBody email password), none, ssl⟩ ∧
    respJson none resp = Except.ok resp.body ∧
    (AuthSession.whoami ((mkAuthSession u ssl).aenter w).1 backend).2.1 =
      [⟨HttpMethod.GET, "/auth/v4/whoami", none, some "application/json", ssl⟩] ∧
    (VmSession.get_task ((mkVmSession u ssl).aenter w).1 task_id backend).2.1 =
      [⟨HttpMethod.GET, "/vm/v3/task/" ++ Nat.repr task_id, none,
        some "application/json", ssl⟩] ∧
    (VmSession.get_task_by_consul_id ((mkVmSession u ssl).aenter w).1 consul_id backend).2.1 =
      [⟨HttpMethod.GET, "/vm/v3/task?where=consul_id+EQ+" ++ Nat.repr consul_id, none,
        some "application/json", ssl⟩] ∧
    (VmSession.host_create ((mkVmSession u ssl).aenter w).1 host_params backend).2.1 =
      [⟨HttpMethod.POST, "/vm/v3/host", some host_params, some "application/json", ssl⟩] ∧
    (VmSession.host_delete ((mkVmSession u ssl).aenter w).1 host_id backend).2.1 =
      [⟨HttpMethod.DELETE, "/vm/v3/host/" ++ Nat.repr host_id, none,
        some "application/json", ssl⟩] ∧
    (VmSession.host_edit ((mkVmSession u ssl).aenter w).1 host_id host_params backend).2.1 =
      [⟨HttpMethod.POST, "/vm/v3/host/" ++ Nat.repr host_id, some host_params,
        some "application/json", ssl⟩] := by
  refine ⟨rfl, rfl, rfl, rfl, ?_, ?_, rfl, ?_, ?_, ?_, ?_, ?_, ?_⟩
  · refine (post_requests ((mkAuthSession u ssl).aenter w).1 w.nextId
        ("/user/" ++ email_or_id ++ "/key") none (some "application/json") backend
        rfl).trans ?_
    simp only [postRequest]
    rw [← String.append_assoc, ← String.append_assoc]
    rfl
  · have hreq := post_requests ((mkAuthSession u ssl).aenter w).1 w.nextId "/public/token"
      (some (tokenRequestBody email password)) none (nbackend 0) rfl
    simp only [AuthSession.get_token, get_token_go]
    cases hr : (BaseSession.post ((mkAuthSession u ssl).aenter w).1 "/public/token"
        (some (tokenRequestBody email password)) none (nbackend 0)).1 with
    | ok v =>
        simp only [hr]
        simp [hreq]
        rfl
    | error e =>
        cases e
        all_goals simp only [hr]
        all_goals try split
        all_goals simp [hreq]
        all_goals rfl
  · exact get_requests ((mkAuthSession u ssl).aenter w).1 w.nextId "/whoami" []
      (some "application/json") backend rfl
  · refine (get_requests ((mkVmSession u ssl).aenter w).1 w.nextId
        ("/task/" ++ Nat.repr task_id) [] (some "application/json") backend rfl).trans ?_
    show [(⟨HttpMethod.GET,
      ((mkVmSession u ssl).aenter w).1.endpoint ++ ("/task/" ++ Nat.repr task_id), none,
      some "application/json", ssl⟩ : Request)] = _
    rw [← String.append_assoc]
    rfl
  · have hconn : ((mkVmSession u ssl).aenter w).1.sessionConn = some w.nextId := rfl
    simp only [VmSession.get_task_by_consul_id]
    cases hr : (BaseSession.get ((mkVmSession u ssl).aenter w).1 "/task"
        [("where", "consul_id+EQ+" ++ Nat.repr consul_id)]
        (some "application/json") backend).1
    all_goals simp only [hr]
    all_goals rw [get_requests _ _ _ _ _ _ hconn]
    all_goals simp only [getRequest]
    all_goals rw [buildGetUrl_where]
    all_goals rfl
  · exact post_requests ((mkVmSession u ssl).aenter w).1 w.nextId "/host"
      (some host_params) (some "application/json") backend rfl
  · refine (delete_requests ((mkVmSession u ssl).aenter w).1 w.nextId
        ("/host/" ++ Nat.repr host_id) (some "application/json") backend rfl).trans ?_
    show [(⟨HttpMethod.DELETE,
      ((mkVmSession u ssl).aenter w).1.endpoint ++ ("/host/" ++ Nat.repr host_id), none,
      some "application/json", ssl⟩ : Request)] = _
    rw [← String.append_assoc]
    rfl
  · refine (post_requests ((mkVmSession u ssl).aenter w).1 w.nextId
        ("/host/" ++ Nat.repr host_id) (some host_params) (some "application/json") backend
        rfl).trans ?_
    show [(⟨HttpMethod.POST,
      ((mkVmSession u ssl).aenter w).1.endpoint ++ ("/host/" ++ Nat.repr host_id),
      some host_params, some "application/json", ssl⟩ : Request)] = _
    rw [← String.append_assoc]
    rfl
